import Mathlib

/-!
Verification of the two S3-upload nodes of this repository
(`src/nodes/save_image_url_node.py` and `src/nodes/save_video_url_node.py`)
against their natural-language specification.

The two Python entry points `SaveImageToS3.save_images` and
`SaveVideoToS3.save_video` are embedded shallowly.  External collaborators
(the PIL PNG encoder, the imageio/FFmpeg video encoder, and the boto3
`put_object` network call) are parameters of the model: an environment
supplies the outcome of each external call, while the model itself performs
every computation the Python code performs (tensor conversion, CRF and
preset derivation, key and metadata construction, control flow including
the try/except and try/finally blocks) and records the S3 requests it
issues and the state of the temporary file.
-/

/-- A multi-dimensional numeric array (numpy ndarray / torch tensor):
a shape together with a valuation of multi-indices. -/
structure NDArr (α : Type) where
  shape : List ℕ
  data : List ℕ → α

/-- `arr = 255.0 * image`; `arr = np.clip(arr, 0, 255).astype(np.uint8)`
(save_image_url_node.py lines 60-61, save_video_url_node.py lines 109-110):
scale to the 8-bit range, clip to [0, 255], truncate to an integer.
After the clip the value is nonnegative, so the `uint8` cast (truncation
toward zero) is the floor. -/
def toU8 (x : ℚ) : ℕ :=
  (⌊min (max (255 * x) 0) 255⌋).toNat

/-- The tensor-to-frame conversion shared by both nodes
(save_image_url_node.py lines 58-66, save_video_url_node.py lines 106-113):
scale/clip/cast each element with `toU8`, and when the array is
3-dimensional with `shape[0] ∈ {1, 3, 4}` (channel-first layout) transpose
it with `np.transpose(arr, (1, 2, 0))`, i.e. (C,H,W) becomes (H,W,C) with
`new[i,j,k] = old[k,i,j]`. -/
def convertFrame (t : NDArr ℚ) : NDArr ℕ :=
  match t.shape with
  | [c, h, w] =>
    if c = 1 ∨ c = 3 ∨ c = 4 then
      { shape := [h, w, c],
        data := fun ix =>
          match ix with
          | [i, j, k] => toU8 (t.data [k, i, j])
          | other => toU8 (t.data other) }
    else
      { shape := [c, h, w], data := fun ix => toU8 (t.data ix) }
  | _ =>
      { shape := t.shape, data := fun ix => toU8 (t.data ix) }

/-- `s3_key = f"{folder}/{filename}"` (save_image_url_node.py line 90,
save_video_url_node.py line 160). -/
def s3Key (folder filename : String) : String :=
  folder ++ "/" ++ filename

/-- `upload_url = f"{s3_endpoint}/{s3_bucket}/{s3_key}"`
(save_image_url_node.py line 98, save_video_url_node.py line 169). -/
def uploadUrl (s3_endpoint s3_bucket key : String) : String :=
  s3_endpoint ++ "/" ++ s3_bucket ++ "/" ++ key

/-- One entry of the `results` list of `save_images`: either
`{"filename": .., "upload_url": .., "status": "success"}` or
`{"filename": .., "error": str(e)}`. -/
inductive ResultRec where
  | success (filename url : String)
  | failure (filename err : String)
deriving DecidableEq

/-- One `put_object` request issued to the S3 client: bucket, key, body
(an opaque identifier of the encoded bytes) and the object metadata
headers (empty when the call passes no `Metadata` argument). -/
structure S3Put where
  bucket : String
  key : String
  body : ℕ
  metadata : List (String × String)
deriving DecidableEq

/-- The external collaborators of `SaveImageToS3.save_images`, indexed by
the type `J` of JSON-serializable metadata values:
`dumps` is `json.dumps`; `encodePNG` is the PIL encode of a converted
frame with an optional `PngInfo` chunk list (it may raise, which the
Python code does not catch); `putOutcome` gives the outcome of the i-th
`put_object` call (an exception or success). -/
structure ImgEnv (J : Type) where
  dumps : J → String
  encodePNG : NDArr ℕ → Option (List (String × String)) → Except String ℕ
  putOutcome : ℕ → Except String Unit

/-- The `PngInfo` object built by `save_images` (lines 68-76): `None` when
neither `prompt` nor `extra_pnginfo` is supplied, otherwise the list of
textual chunks: `"prompt"` mapped to the JSON-serialized prompt, then each
`extra_pnginfo` key mapped to its JSON-serialized value. -/
def pngMetadata {J : Type} (dumps : J → String) (prompt : Option J)
    (extra_pnginfo : Option (List (String × J))) :
    Option (List (String × String)) :=
  match prompt, extra_pnginfo with
  | none, none => none
  | p, e =>
      some ((match p with
             | some x => [("prompt", dumps x)]
             | none => []) ++
            (match e with
             | some kvs => kvs.map (fun kv => (kv.1, dumps kv.2))
             | none => []))

/-- One Python dict assignment `d[k] = v` on a string-keyed dict whose
items are modelled as an insertion-ordered association list: an existing
key keeps its position and receives the new value (dict overwrite), a
new key is appended. -/
def dictInsert (d : List (String × String)) (k v : String) :
    List (String × String) :=
  if d.any (fun kv => kv.1 == k) then
    d.map (fun kv => if kv.1 == k then (k, v) else kv)
  else
    d ++ [(k, v)]

/-- The object metadata dict built by `save_video` (lines 153-158):
`metadata = {}`, then `metadata["prompt"] = json.dumps(prompt)` when a
prompt is supplied, then `metadata[k] = json.dumps(v)` for each
`extra_pnginfo` entry.  These are dict assignments, so an
`extra_pnginfo` entry keyed `"prompt"` overwrites the prompt entry
(unlike the PNG chunk list, which appends). -/
def vidMetadata {J : Type} (dumps : J → String) (prompt : Option J)
    (extra_pnginfo : Option (List (String × J))) : List (String × String) :=
  let m : List (String × String) := []
  let m := match prompt with
    | some x => dictInsert m "prompt" (dumps x)
    | none => m
  match extra_pnginfo with
  | some kvs => kvs.foldl (fun acc kv => dictInsert acc kv.1 (dumps kv.2)) m
  | none => m

/-- The message of the `IndexError` raised by `images[0]` on an empty
batch. -/
def indexErrorMsg : String :=
  "IndexError: index 0 is out of bounds"

/-- The per-item loop of `save_images` (lines 58-103).  For each image:
convert the tensor, encode it to PNG (an encode exception aborts the loop
and propagates, component 1 of the result), issue `put_object` with key
`folder/filename` and no object metadata (component 2 records the
requests), and append a success or failure record to `results`
(component 3) — the upload is wrapped in try/except, so its outcome only
selects the record. -/
def imgLoop {J : Type} (env : ImgEnv J)
    (s3_endpoint s3_bucket folder filename : String)
    (meta : Option (List (String × String))) :
    List (NDArr ℚ) → ℕ → Option String × List S3Put × List ResultRec
  | [], _ => (none, [], [])
  | image :: rest, i =>
      match env.encodePNG (convertFrame image) meta with
      | .error e => (some e, [], [])
      | .ok image_bytes =>
          let put : S3Put := ⟨s3_bucket, s3Key folder filename, image_bytes, []⟩
          let r : ResultRec :=
            match env.putOutcome i with
            | .ok _ =>
                .success filename (uploadUrl s3_endpoint s3_bucket (s3Key folder filename))
            | .error e => .failure filename e
          let t := imgLoop env s3_endpoint s3_bucket folder filename meta rest (i + 1)
          (t.1, put :: t.2.1, r :: t.2.2)

/-- Observable outcome of one `save_images` call: the returned value (the
payload of the single-element tuple `(images[0],)`, or the uncaught
exception), the `put_object` requests issued, and the `results` list that
is printed. -/
structure ImgRun where
  ret : Except String (NDArr ℚ)
  puts : List S3Put
  results : List ResultRec

/-- `SaveImageToS3.save_images` (save_image_url_node.py lines 45-106):
run the per-item loop, then return `(images[0],)` — which raises an
`IndexError` when the batch is empty, as there is no guard. -/
def save_images {J : Type} (env : ImgEnv J) (images : List (NDArr ℚ))
    (s3_endpoint s3_bucket folder filename : String)
    (prompt : Option J) (extra_pnginfo : Option (List (String × J))) : ImgRun :=
  let meta := pngMetadata env.dumps prompt extra_pnginfo
  match imgLoop env s3_endpoint s3_bucket folder filename meta images 0 with
  | (some e, ps, rs) => ⟨.error e, ps, rs⟩
  | (none, ps, rs) =>
      match images with
      | [] => ⟨.error indexErrorMsg, ps, rs⟩
      | x :: _ => ⟨.ok x, ps, rs⟩

/-- `self.ffmpeg_presets` of `SaveVideoToS3.__init__`
(save_video_url_node.py lines 18-22). -/
def ffmpeg_presets : List (String × String) :=
  [("default", "medium"), ("fastest", "ultrafast"), ("slowest", "veryslow")]

/-- `preset = self.ffmpeg_presets.get(method, "medium")`
(save_video_url_node.py line 116). -/
def presetFor (method : String) : String :=
  (ffmpeg_presets.lookup method).getD "medium"

/-- The CRF derivation (save_video_url_node.py lines 119-123):
`crf = 0` when lossless, otherwise `51 - int(quality * 51 / 100)` then
`crf = max(0, min(51, crf))`.  Python's `int()` truncates toward zero,
modelled by `Int.tdiv`; for `0 ≤ quality ≤ 100` the float division
`quality * 51 / 100` is never rounded across an integer boundary, so the
exact rational model agrees with the float computation there. -/
def crfFor (lossless : Bool) (quality : ℤ) : ℤ :=
  if lossless then 0
  else max 0 (min 51 (51 - Int.tdiv (quality * 51) 100))

/-- The external collaborators of `SaveVideoToS3.save_video`:
`dumps` is `json.dumps`; `writeVideo` is the imageio/FFmpeg encode step
(frames, fps, preset, crf — it may raise); `putOutcome` is the outcome of
the single `put_object` call. -/
structure VidEnv (J : Type) where
  dumps : J → String
  writeVideo : List (NDArr ℕ) → ℚ → String → ℤ → Except String ℕ
  putOutcome : Except String Unit

/-- `torch.zeros((3, 64, 64), dtype=torch.float32)`
(save_video_url_node.py line 177). -/
def dummyFrame : NDArr ℚ :=
  ⟨[3, 64, 64], fun _ => 0⟩

/-- Observable outcome of one `save_video` call: the returned value (or
uncaught exception), the `put_object` requests issued, whether the
temporary video file still exists after the call, and the upload error
that was caught and logged (if any). -/
structure VidRun where
  ret : Except String (NDArr ℚ)
  puts : List S3Put
  tempExists : Bool
  uploadError : Option String

/-- `SaveVideoToS3.save_video` (save_video_url_node.py lines 61-178):
convert the frames, derive preset and CRF, create a temporary file
(`delete=False`), encode through it inside `try`, with a `finally` block
that removes the file if it exists; an encode exception then propagates.
On success, build the metadata dict, issue one `put_object` with key
`folder/filename` and the metadata headers inside try/except (a failure
is only logged), and return the first frame, or a zero-filled
3×64×64 placeholder when the input sequence is empty. -/
def save_video {J : Type} (env : VidEnv J) (filename : String) (fps : ℚ)
    (folder : String) (images : List (NDArr ℚ)) (lossless : Bool)
    (method : String) (quality : ℤ) (s3_endpoint s3_bucket : String)
    (prompt : Option J) (extra_pnginfo : Option (List (String × J))) : VidRun :=
  let frames_all := images.map convertFrame
  let preset := presetFor method
  let crf := crfFor lossless quality
  -- tempfile.NamedTemporaryFile(suffix=ext, delete=False) creates the file
  let tempCreated := true
  let encRes := env.writeVideo frames_all fps preset crf
  -- finally: if os.path.exists(temp_filename): os.remove(temp_filename)
  let tempAfter := if tempCreated then false else tempCreated
  match encRes with
  | .error e => ⟨.error e, [], tempAfter, none⟩
  | .ok video_bytes =>
      let metadata := vidMetadata env.dumps prompt extra_pnginfo
      let put : S3Put := ⟨s3_bucket, s3Key folder filename, video_bytes, metadata⟩
      let uploadErr : Option String :=
        match env.putOutcome with
        | .ok _ => none
        | .error e => some e
      match images with
      | [] => ⟨.ok dummyFrame, [put], tempAfter, uploadErr⟩
      | x :: _ => ⟨.ok x, [put], tempAfter, uploadErr⟩

/-- A concrete image-node environment for evaluating the model: PNG
encoding always succeeds (blob 0) and every upload raises. -/
def imgEnv0 : ImgEnv String :=
  ⟨fun s => s, fun _ _ => .ok 0, fun _ => .error "connection refused"⟩

/-- A concrete video-node environment: encoding always succeeds (blob 0)
and the upload raises. -/
def vidEnv0 : VidEnv String :=
  ⟨fun s => s, fun _ _ _ _ => .ok 0, .error "connection refused"⟩

/-- A concrete 1×1×3 channel-first tensor with all values 1/2. -/
def t0 : NDArr ℚ :=
  ⟨[1, 1, 3], fun _ => 1/2⟩

/-- A concrete 3×2×2 channel-first tensor with all values 1/2. -/
def tCHW : NDArr ℚ :=
  ⟨[3, 2, 2], fun _ => 1/2⟩

/-! ## Helper lemmas -/

theorem toU8_le (x : ℚ) : toU8 x ≤ 255 := by
  unfold toU8
  have h : min (max (255 * x) 0) 255 ≤ (255 : ℚ) := min_le_right _ _
  have h2 : (⌊min (max (255 * x) 0) 255⌋ : ℤ) ≤ 255 := by
    calc ⌊min (max (255 * x) 0) 255⌋ ≤ ⌊(255 : ℚ)⌋ := Int.floor_le_floor h
    _ = 255 := by norm_num
  omega

theorem dictInsert_of_not_mem (d : List (String × String)) (k v : String)
    (h : ∀ a ∈ d, a.1 ≠ k) : dictInsert d k v = d ++ [(k, v)] := by
  have hany : d.any (fun kv => kv.1 == k) = false := by
    rw [List.any_eq_false]
    intro a ha
    simpa using h a ha
  simp [dictInsert, hany]

theorem foldl_dictInsert_eq_append {J : Type} (dumps : J → String) :
    ∀ (kvs : List (String × J)) (acc : List (String × String)),
      (∀ kv ∈ kvs, ∀ a ∈ acc, a.1 ≠ kv.1) →
      kvs.Pairwise (fun a b => a.1 ≠ b.1) →
      kvs.foldl (fun m kv => dictInsert m kv.1 (dumps kv.2)) acc =
        acc ++ kvs.map (fun kv => (kv.1, dumps kv.2)) := by
  intro kvs
  induction kvs with
  | nil =>
      intro acc _ _
      simp
  | cons kv kvs ih =>
      intro acc hfresh hpair
      obtain ⟨hkv, hpair2⟩ := List.pairwise_cons.mp hpair
      have hstep : dictInsert acc kv.1 (dumps kv.2) = acc ++ [(kv.1, dumps kv.2)] :=
        dictInsert_of_not_mem acc kv.1 (dumps kv.2)
          (fun a ha => hfresh kv (List.mem_cons_self kv kvs) a ha)
      have hfresh2 : ∀ kv2 ∈ kvs, ∀ a ∈ acc ++ [(kv.1, dumps kv.2)], a.1 ≠ kv2.1 := by
        intro kv2 hkv2 a ha
        rcases List.mem_append.mp ha with h1 | h2
        · exact hfresh kv2 (List.mem_cons_of_mem _ hkv2) a h1
        · have ha2 : a = (kv.1, dumps kv.2) := List.mem_singleton.mp h2
          rw [ha2]
          exact hkv kv2 hkv2
      rw [List.foldl_cons, hstep, ih (acc ++ [(kv.1, dumps kv.2)]) hfresh2 hpair2]
      simp

theorem tdiv_eq_ediv_of_nonneg (q : ℤ) (h0 : 0 ≤ q) :
    Int.tdiv (q * 51) 100 = (q * 51) / 100 := by
  have h : 0 ≤ q * 51 := by positivity
  obtain ⟨m, hm⟩ := Int.eq_ofNat_of_zero_le h
  rw [hm]
  have h2 : Int.tdiv ((m : ℕ) : ℤ) 100 = ((m / 100 : ℕ) : ℤ) := rfl
  rw [h2]
  omega

theorem floor_ratCast_mul_div (q : ℤ) : ⌊((q : ℚ) * 51) / 100⌋ = (q * 51) / 100 := by
  have h : ((q : ℚ) * 51) / 100 = ((q * 51 : ℤ) : ℚ) / ((100 : ℕ) : ℚ) := by
    push_cast
    ring
  rw [h, Rat.floor_intCast_div_natCast]
  norm_num

theorem imgLoop_fst_none {J : Type} (env : ImgEnv J)
    (s3_endpoint s3_bucket folder filename : String)
    (meta : Option (List (String × String))) :
    ∀ (images : List (NDArr ℚ)) (i : ℕ),
      (∀ a m, ∃ b, env.encodePNG a m = Except.ok b) →
      (imgLoop env s3_endpoint s3_bucket folder filename meta images i).1 = none := by
  intro images
  induction images with
  | nil => intro i _; rfl
  | cons hd tl ih =>
      intro i henc
      obtain ⟨b, hb⟩ := henc (convertFrame hd) meta
      simp only [imgLoop, hb]
      exact ih (i + 1) henc

theorem save_images_ret_ok {J : Type} (env : ImgEnv J) (x : NDArr ℚ)
    (rest : List (NDArr ℚ)) (s3_endpoint s3_bucket folder filename : String)
    (p : Option J) (e : Option (List (String × J)))
    (henc : ∀ a m, ∃ b, env.encodePNG a m = Except.ok b) :
    (save_images env (x :: rest) s3_endpoint s3_bucket folder filename p e).ret =
      Except.ok x := by
  have h := imgLoop_fst_none env s3_endpoint s3_bucket folder filename
    (pngMetadata env.dumps p e) (x :: rest) 0 henc
  rcases h2 : imgLoop env s3_endpoint s3_bucket folder filename
      (pngMetadata env.dumps p e) (x :: rest) 0 with ⟨err, ps, rs⟩
  rw [h2] at h
  simp only at h
  subst h
  simp [save_images, h2]

theorem save_video_eq_ok {J : Type} (env : VidEnv J) (filename : String) (fps : ℚ)
    (folder : String) (images : List (NDArr ℚ)) (lossless : Bool) (method : String)
    (quality : ℤ) (s3_endpoint s3_bucket : String)
    (p : Option J) (e : Option (List (String × J))) (b : ℕ)
    (h : env.writeVideo (images.map convertFrame) fps (presetFor method)
          (crfFor lossless quality) = Except.ok b) :
    save_video env filename fps folder images lossless method quality
        s3_endpoint s3_bucket p e =
      ⟨.ok (images.headD dummyFrame),
       [⟨s3_bucket, s3Key folder filename, b, vidMetadata env.dumps p e⟩],
       false,
       match env.putOutcome with
       | .ok _ => none
       | .error e2 => some e2⟩ := by
  cases images <;> simp only [save_video, h, List.headD] <;> rfl

theorem save_video_eq_err {J : Type} (env : VidEnv J) (filename : String) (fps : ℚ)
    (folder : String) (images : List (NDArr ℚ)) (lossless : Bool) (method : String)
    (quality : ℤ) (s3_endpoint s3_bucket : String)
    (p : Option J) (e : Option (List (String × J))) (msg : String)
    (h : env.writeVideo (images.map convertFrame) fps (presetFor method)
          (crfFor lossless quality) = Except.error msg) :
    save_video env filename fps folder images lossless method quality
        s3_endpoint s3_bucket p e = ⟨.error msg, [], false, none⟩ := by
  cases images <;> simp only [save_video, h] <;> rfl

theorem imgLoop_puts_spec {J : Type} (env : ImgEnv J)
    (s3_endpoint s3_bucket folder filename : String)
    (meta : Option (List (String × String))) :
    ∀ (images : List (NDArr ℚ)) (i : ℕ),
      ∀ put ∈ (imgLoop env s3_endpoint s3_bucket folder filename meta images i).2.1,
        put.key = folder ++ "/" ++ filename ∧ put.metadata = [] := by
  intro images
  induction images with
  | nil =>
      intro i put hmem
      simp [imgLoop] at hmem
  | cons hd tl ih =>
      intro i put hmem
      rcases h : env.encodePNG (convertFrame hd) meta with e2 | b
      · simp [imgLoop, h] at hmem
      · simp only [imgLoop, h, List.mem_cons] at hmem
        rcases hmem with hput | hmem
        · subst hput
          exact ⟨rfl, rfl⟩
        · exact ih (i + 1) put hmem

theorem imgLoop_results_fail {J : Type} (env : ImgEnv J)
    (s3_endpoint s3_bucket folder filename : String)
    (meta : Option (List (String × String))) (msg : String)
    (hput : ∀ i, env.putOutcome i = Except.error msg) :
    ∀ (images : List (NDArr ℚ)) (i : ℕ),
      (∀ a m, ∃ b, env.encodePNG a m = Except.ok b) →
      (imgLoop env s3_endpoint s3_bucket folder filename meta images i).2.2 =
        List.replicate images.length (ResultRec.failure filename msg) := by
  intro images
  induction images with
  | nil => intro i _; rfl
  | cons hd tl ih =>
      intro i henc
      obtain ⟨b, hb⟩ := henc (convertFrame hd) meta
      simp only [imgLoop, hb, hput i, List.length_cons, List.replicate_succ]
      rw [ih (i + 1) henc]

theorem save_images_puts {J : Type} (env : ImgEnv J) (images : List (NDArr ℚ))
    (s3_endpoint s3_bucket folder filename : String)
    (p : Option J) (e : Option (List (String × J))) :
    (save_images env images s3_endpoint s3_bucket folder filename p e).puts =
      (imgLoop env s3_endpoint s3_bucket folder filename
        (pngMetadata env.dumps p e) images 0).2.1 := by
  rcases h : imgLoop env s3_endpoint s3_bucket folder filename
      (pngMetadata env.dumps p e) images 0 with ⟨err, ps, rs⟩
  rcases err with _ | e2 <;> cases images <;> simp [save_images, h]

theorem save_images_results {J : Type} (env : ImgEnv J) (images : List (NDArr ℚ))
    (s3_endpoint s3_bucket folder filename : String)
    (p : Option J) (e : Option (List (String × J))) :
    (save_images env images s3_endpoint s3_bucket folder filename p e).results =
      (imgLoop env s3_endpoint s3_bucket folder filename
        (pngMetadata env.dumps p e) images 0).2.2 := by
  rcases h : imgLoop env s3_endpoint s3_bucket folder filename
      (pngMetadata env.dumps p e) images 0 with ⟨err, ps, rs⟩
  rcases err with _ | e2 <;> cases images <;> simp [save_images, h]

/-! ## Claim theorems -/

/-- C1: for every non-empty batch of image tensors and any S3 parameters
(and any per-item upload outcomes), `save_images` returns the first input
tensor of the batch unchanged (as the payload of its single-element
tuple), and this return value is the same whatever the per-item upload
outcomes are.  The hypothesis states that PNG encoding succeeds (a valid
tensor batch); the upload outcomes are unconstrained. -/
theorem C1_image_passthrough {J : Type} (env : ImgEnv J) (x : NDArr ℚ)
    (rest : List (NDArr ℚ)) (s3_endpoint s3_bucket folder filename : String)
    (p : Option J) (e : Option (List (String × J)))
    (henc : ∀ a m, ∃ b, env.encodePNG a m = Except.ok b) :
    (save_images env (x :: rest) s3_endpoint s3_bucket folder filename p e).ret =
      Except.ok x ∧
    ∀ put1 put2 : ℕ → Except String Unit,
      (save_images ⟨env.dumps, env.encodePNG, put1⟩ (x :: rest)
          s3_endpoint s3_bucket folder filename p e).ret =
        (save_images ⟨env.dumps, env.encodePNG, put2⟩ (x :: rest)
          s3_endpoint s3_bucket folder filename p e).ret := by
  refine ⟨save_images_ret_ok env x rest s3_endpoint s3_bucket folder filename p e henc,
    fun put1 put2 => ?_⟩
  rw [save_images_ret_ok ⟨env.dumps, env.encodePNG, put1⟩ x rest
        s3_endpoint s3_bucket folder filename p e henc,
      save_images_ret_ok ⟨env.dumps, env.encodePNG, put2⟩ x rest
        s3_endpoint s3_bucket folder filename p e henc]

/-- C1 witness: a concrete one-element batch whose uploads all fail still
returns the first tensor. -/
theorem C1_image_passthrough_witness :
    (save_images imgEnv0 [t0] "http://e" "bkt" "ddcn_results" "ComfyUI.png"
      none none).ret = Except.ok t0 :=
  (C1_image_passthrough imgEnv0 t0 [] "http://e" "bkt" "ddcn_results" "ComfyUI.png"
    none none (fun _ _ => ⟨0, rfl⟩)).1

/-- C2: when encoding succeeds and every `put_object` call raises, the
exception is caught inside the component: `save_images` still returns the
first image (recording one failure per item in `results`), and
`save_video` still returns its passthrough frame, with the upload error
only caught and logged. -/
theorem C2_upload_error_caught {J : Type} (envI : ImgEnv J) (envV : VidEnv J)
    (x : NDArr ℚ) (rest images : List (NDArr ℚ))
    (s3_endpoint s3_bucket folder filename : String) (fps : ℚ)
    (lossless : Bool) (method : String) (quality : ℤ) (msg : String)
    (p : Option J) (e : Option (List (String × J)))
    (hencI : ∀ a m, ∃ b, envI.encodePNG a m = Except.ok b)
    (hputI : ∀ i, envI.putOutcome i = Except.error msg)
    (hencV : ∃ b, envV.writeVideo (images.map convertFrame) fps (presetFor method)
      (crfFor lossless quality) = Except.ok b)
    (hputV : envV.putOutcome = Except.error msg) :
    (save_images envI (x :: rest) s3_endpoint s3_bucket folder filename p e).ret =
      Except.ok x ∧
    (save_images envI (x :: rest) s3_endpoint s3_bucket folder filename p e).results =
      List.replicate (rest.length + 1) (ResultRec.failure filename msg) ∧
    (save_video envV filename fps folder images lossless method quality
        s3_endpoint s3_bucket p e).ret = Except.ok (images.headD dummyFrame) ∧
    (save_video envV filename fps folder images lossless method quality
        s3_endpoint s3_bucket p e).uploadError = some msg := by
  obtain ⟨b, hb⟩ := hencV
  have hv := save_video_eq_ok envV filename fps folder images lossless method
    quality s3_endpoint s3_bucket p e b hb
  refine ⟨save_images_ret_ok envI x rest s3_endpoint s3_bucket folder filename p e hencI,
    ?_, ?_, ?_⟩
  · rw [save_images_results]
    exact imgLoop_results_fail envI s3_endpoint s3_bucket folder filename
      (pngMetadata envI.dumps p e) msg hputI (x :: rest) 0 hencI
  · rw [hv]
  · rw [hv]
    simp [hputV]

/-- C2 witness: concrete environments whose uploads raise; both
components still return their passthrough value. -/
theorem C2_upload_error_caught_witness :
    (save_images imgEnv0 [t0] "http://e" "bkt" "f" "a.png" none none).ret =
      Except.ok t0 ∧
    (save_video vidEnv0 "a.mp4" 6 "f" [t0] true "default" 80 "http://e" "bkt"
      none none).ret = Except.ok ([t0].headD dummyFrame) := by
  have h := C2_upload_error_caught imgEnv0 vidEnv0 t0 [] [t0] "http://e" "bkt"
    "f" "a.png" 6 true "default" 80 "connection refused" none none
    (fun _ _ => ⟨0, rfl⟩) (fun _ => rfl) ⟨0, rfl⟩ rfl
  exact ⟨h.1, h.2.2.1⟩

/-- C3: the derived CRF is 0 whenever `lossless` is set; otherwise, for
quality in [0, 100], it is `51 - ⌊quality * 51 / 100⌋` clamped to
[0, 51]; in particular quality 100 gives CRF 0 and quality 0 gives
CRF 51. -/
theorem C3_crf_derivation (q : ℤ) :
    crfFor true q = 0 ∧
    (0 ≤ q → q ≤ 100 →
      crfFor false q = max 0 (min 51 (51 - ⌊((q : ℚ) * 51) / 100⌋))) ∧
    crfFor false 100 = 0 ∧
    crfFor false 0 = 51 := by
  refine ⟨by simp [crfFor], ?_, by decide, by decide⟩
  intro h0 _
  rw [floor_ratCast_mul_div q]
  simp only [crfFor, if_neg, Bool.false_eq_true, tdiv_eq_ediv_of_nonneg q h0]
  rfl

/-- C3 witness: the in-range formula evaluated at quality 37. -/
theorem C3_crf_derivation_witness :
    crfFor false 37 = max 0 (min 51 (51 - ⌊((37 : ℚ) * 51) / 100⌋)) :=
  (C3_crf_derivation 37).2.1 (by decide) (by decide)

/-- C4: on the empty frame sequence `save_video` does not fail: whenever
the (external) encode step succeeds on zero frames, the call returns a
well-formed zero-filled 3×64×64 placeholder frame rather than a first
input frame. -/
theorem C4_empty_video_placeholder {J : Type} (env : VidEnv J)
    (filename : String) (fps : ℚ) (folder : String) (lossless : Bool)
    (method : String) (quality : ℤ) (s3_endpoint s3_bucket : String)
    (p : Option J) (e : Option (List (String × J)))
    (henc : ∃ b, env.writeVideo [] fps (presetFor method) (crfFor lossless quality) =
      Except.ok b) :
    (save_video env filename fps folder [] lossless method quality
        s3_endpoint s3_bucket p e).ret = Except.ok dummyFrame ∧
    dummyFrame.shape = [3, 64, 64] ∧ ∀ ix, dummyFrame.data ix = 0 := by
  obtain ⟨b, hb⟩ := henc
  refine ⟨?_, rfl, fun ix => rfl⟩
  rw [save_video_eq_ok env filename fps folder [] lossless method quality
    s3_endpoint s3_bucket p e b hb]
  rfl

/-- C4 witness: a concrete empty run returns the placeholder. -/
theorem C4_empty_video_placeholder_witness :
    (save_video vidEnv0 "ComfyUI.mp4" 6 "ddcn_results" [] true "default" 80
      "http://e" "bkt" none none).ret = Except.ok dummyFrame :=
  (C4_empty_video_placeholder vidEnv0 "ComfyUI.mp4" 6 "ddcn_results" true
    "default" 80 "http://e" "bkt" none none ⟨0, rfl⟩).1

/-- C5 counterexample: with folder `"a/b"` and filename `"c.png"` the key
passed to `put_object` is `"a/b/c.png"`, which contains two path
separators, not one — the claim's parenthetical fails for folder strings
that themselves contain a separator. -/
theorem C5_counterexample :
    (save_images imgEnv0 [t0] "http://e" "bkt" "a/b" "c.png" none none).puts.map
        S3Put.key = ["a/b/c.png"] ∧
    ¬ ("a/b/c.png".toList.count '/' = 1) := by
  constructor
  · decide
  · decide

/-- C5 amended: every `put_object` key of either component is exactly the
folder string, one '/' separator, then the filename string (the same
fixed key for every item of a batch); when the folder and filename
themselves contain no '/', that key contains a single path separator. -/
theorem C5_amended_key {J : Type} (envI : ImgEnv J) (envV : VidEnv J)
    (images frames : List (NDArr ℚ)) (s3_endpoint s3_bucket folder filename : String)
    (fps : ℚ) (lossless : Bool) (method : String) (quality : ℤ)
    (p : Option J) (e : Option (List (String × J))) :
    (∀ put ∈ (save_images envI images s3_endpoint s3_bucket folder filename p e).puts,
        put.key = folder ++ "/" ++ filename) ∧
    (∀ put ∈ (save_video envV filename fps folder frames lossless method quality
        s3_endpoint s3_bucket p e).puts,
        put.key = folder ++ "/" ++ filename) ∧
    (folder.toList.count '/' = 0 → filename.toList.count '/' = 0 →
      (folder ++ "/" ++ filename).toList.count '/' = 1) := by
  refine ⟨?_, ?_, ?_⟩
  · intro put hmem
    rw [save_images_puts] at hmem
    exact (imgLoop_puts_spec envI s3_endpoint s3_bucket folder filename
      (pngMetadata envI.dumps p e) images 0 put hmem).1
  · intro put hmem
    rcases h : envV.writeVideo (frames.map convertFrame) fps (presetFor method)
        (crfFor lossless quality) with msg | b
    · rw [save_video_eq_err envV filename fps folder frames lossless method
        quality s3_endpoint s3_bucket p e msg h] at hmem
      simp at hmem
    · rw [save_video_eq_ok envV filename fps folder frames lossless method
        quality s3_endpoint s3_bucket p e b h] at hmem
      simp only [List.mem_singleton] at hmem
      subst hmem
      rfl
  · intro hf hn
    have h1 : (folder ++ "/" ++ filename).toList =
        folder.toList ++ "/".toList ++ filename.toList := rfl
    rw [h1, List.count_append, List.count_append, hf, hn]
    decide

/-- C5 amended witness: a run with separator-free folder and filename
gives the key with exactly one separator. -/
theorem C5_amended_key_witness :
    (∀ put ∈ (save_images imgEnv0 [t0] "http://e" "bkt" "ddcn_results"
        "ComfyUI.png" none none).puts,
      put.key = "ddcn_results" ++ "/" ++ "ComfyUI.png") ∧
    ("ddcn_results" ++ "/" ++ "ComfyUI.png").toList.count '/' = 1 := by
  have h := C5_amended_key imgEnv0 vidEnv0 [t0] [] "http://e" "bkt"
    "ddcn_results" "ComfyUI.png" 6 true "default" 80 none none
  exact ⟨h.1, h.2.2 (by decide) (by decide)⟩

/-- C6: the pre-encoding conversion maps every element x to
clip(255·x, 0, 255) truncated to an 8-bit value; a 3-dimensional
channel-first array (C ∈ {1,3,4}) is transposed from (C,H,W) to (H,W,C)
before encoding, any other array keeps its shape; every produced element
fits in 8 bits. -/
theorem C6_frame_conversion (t : NDArr ℚ) (c h w i j k : ℕ) (ix : List ℕ) :
    (t.shape = [c, h, w] → (c = 1 ∨ c = 3 ∨ c = 4) →
      (convertFrame t).shape = [h, w, c] ∧
      (convertFrame t).data [i, j, k] =
        (⌊min (max (255 * t.data [k, i, j]) 0) 255⌋).toNat) ∧
    ((∀ c2 h2 w2 : ℕ, t.shape = [c2, h2, w2] → ¬(c2 = 1 ∨ c2 = 3 ∨ c2 = 4)) →
      (convertFrame t).shape = t.shape ∧
      (convertFrame t).data ix =
        (⌊min (max (255 * t.data ix) 0) 255⌋).toNat) ∧
    (convertFrame t).data ix ≤ 255 := by
  obtain ⟨sh, d⟩ := t
  rcases sh with _ | ⟨c0, sh⟩
  · exact ⟨fun hsh => by simp at hsh, fun _ => ⟨rfl, rfl⟩, toU8_le _⟩
  rcases sh with _ | ⟨h0, sh⟩
  · exact ⟨fun hsh => by simp at hsh, fun _ => ⟨rfl, rfl⟩, toU8_le _⟩
  rcases sh with _ | ⟨w0, sh⟩
  · exact ⟨fun hsh => by simp at hsh, fun _ => ⟨rfl, rfl⟩, toU8_le _⟩
  rcases sh with _ | ⟨r0, sh⟩
  · -- exactly three dimensions
    by_cases hc : c0 = 1 ∨ c0 = 3 ∨ c0 = 4
    · refine ⟨?_, ?_, ?_⟩
      · intro hsh _
        obtain ⟨hc1, hh1, hw1⟩ : c0 = c ∧ h0 = h ∧ w0 = w := by
          simpa using hsh
        subst hc1; subst hh1; subst hw1
        constructor
        · simp [convertFrame, hc]
        · simp [convertFrame, hc, toU8]
      · intro hno
        exact absurd hc (hno c0 h0 w0 rfl)
      · show (convertFrame ⟨[c0, h0, w0], d⟩).data ix ≤ 255
        simp only [convertFrame, hc, if_pos]
        split
        · exact toU8_le _
        · exact toU8_le _
    · refine ⟨?_, ?_, ?_⟩
      · intro hsh hcf
        obtain ⟨hc1, hh1, hw1⟩ : c0 = c ∧ h0 = h ∧ w0 = w := by
          simpa using hsh
        subst hc1; subst hh1; subst hw1
        exact absurd hcf hc
      · intro _
        constructor
        · simp [convertFrame, hc]
        · simp [convertFrame, hc, toU8]
      · show (convertFrame ⟨[c0, h0, w0], d⟩).data ix ≤ 255
        simp only [convertFrame, hc, if_neg]
        exact toU8_le _
  · -- more than three dimensions
    exact ⟨fun hsh => by simp at hsh, fun _ => ⟨rfl, rfl⟩, toU8_le _⟩

/-- C6 witness: a 3×2×2 channel-first tensor is transposed to 2×2×3 and
its element at [0,1,2] is the clipped-scaled value of the input element
at [2,0,1]. -/
theorem C6_frame_conversion_witness :
    (convertFrame tCHW).shape = [2, 2, 3] ∧
    (convertFrame tCHW).data [0, 1, 2] =
      (⌊min (max (255 * tCHW.data [2, 0, 1]) 0) 255⌋).toNat :=
  (C6_frame_conversion tCHW 3 2 2 0 1 2 []).1 rfl (by norm_num)

/-- C7: the temporary video file created for the encode step never
persists past the call: whatever the environment (so both when the encode
step succeeds and when it raises), after `save_video` the temporary file
no longer exists — the `finally` block removes it unconditionally. -/
theorem C7_temp_file_removed {J : Type} (env : VidEnv J) (filename : String)
    (fps : ℚ) (folder : String) (images : List (NDArr ℚ)) (lossless : Bool)
    (method : String) (quality : ℤ) (s3_endpoint s3_bucket : String)
    (p : Option J) (e : Option (List (String × J))) :
    (save_video env filename fps folder images lossless method quality
      s3_endpoint s3_bucket p e).tempExists = false := by
  rcases h : env.writeVideo (images.map convertFrame) fps (presetFor method)
      (crfFor lossless quality) with msg | b
  · rw [save_video_eq_err env filename fps folder images lossless method
      quality s3_endpoint s3_bucket p e msg h]
  · rw [save_video_eq_ok env filename fps folder images lossless method
      quality s3_endpoint s3_bucket p e b h]

/-- C9: the image uploader has no empty-input guard: on the empty batch
the loop runs zero times (no upload is attempted) and the final
`images[0]` raises an `IndexError` instead of returning a placeholder. -/
theorem C9_empty_batch_raises {J : Type} (env : ImgEnv J)
    (s3_endpoint s3_bucket folder filename : String)
    (p : Option J) (e : Option (List (String × J))) :
    (save_images env [] s3_endpoint s3_bucket folder filename p e).ret =
      Except.error indexErrorMsg ∧
    (save_images env [] s3_endpoint s3_bucket folder filename p e).puts = [] := by
  exact ⟨rfl, rfl⟩

/-- C10: the FFmpeg preset selection is total: the three named methods
map to their presets and every other method string falls back to
`"medium"`. -/
theorem C10_preset_total (m : String) :
    presetFor "default" = "medium" ∧
    presetFor "fastest" = "ultrafast" ∧
    presetFor "slowest" = "veryslow" ∧
    (m ≠ "default" → m ≠ "fastest" → m ≠ "slowest" → presetFor m = "medium") := by
  refine ⟨rfl, rfl, rfl, ?_⟩
  intro h1 h2 h3
  have e1 : (m == "default") = false := beq_eq_false_iff_ne.mpr h1
  have e2 : (m == "fastest") = false := beq_eq_false_iff_ne.mpr h2
  have e3 : (m == "slowest") = false := beq_eq_false_iff_ne.mpr h3
  simp [presetFor, ffmpeg_presets, List.lookup, e1, e2, e3]

/-- C10 witness: an unknown method string falls back to `"medium"`. -/
theorem C10_preset_total_witness : presetFor "veryfast" = "medium" :=
  (C10_preset_total "veryfast").2.2.2 (by decide) (by decide) (by decide)

/-- C8 counterexample: with prompt `"p"` and extra info `{"prompt": "q"}`
the video node's `put_object` carries only `[("prompt", "q")]` — the dict
assignment of the extra entry overwrites the prompt header — while the
PNG chunk list keeps both entries, so the two components do not attach
the same entries at this input. -/
theorem C8_counterexample :
    (save_video vidEnv0 "a.mp4" 6 "f" [] true "default" 80 "http://e" "bkt"
        (some "p") (some [("prompt", "q")])).puts.map S3Put.metadata =
      [[("prompt", "q")]] ∧
    pngMetadata (fun s : String => s) (some "p") (some [("prompt", "q")]) =
      some [("prompt", "p"), ("prompt", "q")] ∧
    ¬ (pngMetadata (fun s : String => s) (some "p") (some [("prompt", "q")]) =
        some (vidMetadata (fun s : String => s) (some "p") (some [("prompt", "q")]))) := by
  refine ⟨?_, ?_, ?_⟩
  · decide
  · decide
  · decide

/-- C8 amended: when prompt or extra metadata is supplied, the image node
embeds each entry as a PNG textual chunk (`pngMetadata`, the `PngInfo`
passed to the PNG encoder) and the video node attaches the JSON-serialized
entries as object-level string metadata headers on its `put_object` call
(never inside the MP4 container); the image node's `put_object` carries no
object metadata, and when neither prompt nor extra info is supplied no
metadata is attached.  The entries agree between the two components
provided the extra-info mapping (whose keys, being dict items, are
pairwise distinct) does not itself contain the key `"prompt"`: a dict
assignment would otherwise overwrite the prompt header while the PNG
keeps both chunks. -/
theorem C8_amended_metadata {J : Type} (dumps : J → String)
    (p : Option J) (e : Option (List (String × J)))
    (envV : VidEnv J) (images : List (NDArr ℚ))
    (filename : String) (fps : ℚ) (folder : String) (lossless : Bool)
    (method : String) (quality : ℤ) (s3_endpoint s3_bucket : String)
    (hkeys : ∀ kvs, e = some kvs → kvs.Pairwise (fun a b => a.1 ≠ b.1))
    (hprompt : ∀ kvs, e = some kvs → p ≠ none → ∀ kv ∈ kvs, kv.1 ≠ "prompt") :
    pngMetadata dumps none none = none ∧
    vidMetadata dumps none none = [] ∧
    (p ≠ none ∨ e ≠ none → pngMetadata dumps p e = some (vidMetadata dumps p e)) ∧
    (∀ x kvs, p = some x → e = some kvs →
      vidMetadata dumps p e =
        ("prompt", dumps x) :: kvs.map (fun kv => (kv.1, dumps kv.2))) ∧
    (∀ put ∈ (save_video envV filename fps folder images lossless method quality
        s3_endpoint s3_bucket p e).puts,
      put.metadata = vidMetadata envV.dumps p e) ∧
    (∀ (envI : ImgEnv J) (imgs : List (NDArr ℚ)),
      ∀ put ∈ (save_images envI imgs s3_endpoint s3_bucket folder filename p e).puts,
        put.metadata = []) := by
  refine ⟨rfl, rfl, ?_, ?_, ?_, ?_⟩
  · intro h
    rcases p with _ | xp <;> rcases e with _ | xe
    · rcases h with h | h <;> exact absurd rfl h
    · have hfold := foldl_dictInsert_eq_append dumps xe []
        (fun kv _ a ha => absurd ha (List.not_mem_nil a)) (hkeys xe rfl)
      show pngMetadata dumps none (some xe) =
        some (xe.foldl (fun acc kv => dictInsert acc kv.1 (dumps kv.2)) [])
      rw [hfold]
      rfl
    · rfl
    · have hp : ∀ kv ∈ xe, kv.1 ≠ "prompt" := hprompt xe rfl (by simp)
      have hfold := foldl_dictInsert_eq_append dumps xe [("prompt", dumps xp)]
        (fun kv hkv a ha => by
          have ha2 : a = ("prompt", dumps xp) := List.mem_singleton.mp ha
          rw [ha2]
          exact Ne.symm (hp kv hkv)) (hkeys xe rfl)
      show pngMetadata dumps (some xp) (some xe) =
        some (xe.foldl (fun acc kv => dictInsert acc kv.1 (dumps kv.2))
          (dictInsert [] "prompt" (dumps xp)))
      rw [show dictInsert [] "prompt" (dumps xp) = [("prompt", dumps xp)] from rfl,
        hfold]
      rfl
  · intro x kvs hp2 he2
    subst hp2
    subst he2
    have hp : ∀ kv ∈ kvs, kv.1 ≠ "prompt" := hprompt kvs rfl (by simp)
    have hfold := foldl_dictInsert_eq_append dumps kvs [("prompt", dumps x)]
      (fun kv hkv a ha => by
        have ha2 : a = ("prompt", dumps x) := List.mem_singleton.mp ha
        rw [ha2]
        exact Ne.symm (hp kv hkv)) (hkeys kvs rfl)
    show kvs.foldl (fun acc kv => dictInsert acc kv.1 (dumps kv.2))
        (dictInsert [] "prompt" (dumps x)) =
      ("prompt", dumps x) :: kvs.map (fun kv => (kv.1, dumps kv.2))
    rw [show dictInsert [] "prompt" (dumps x) = [("prompt", dumps x)] from rfl,
      hfold]
    rfl
  · intro put hmem
    rcases h : envV.writeVideo (images.map convertFrame) fps (presetFor method)
        (crfFor lossless quality) with msg | b
    · rw [save_video_eq_err envV filename fps folder images lossless method
        quality s3_endpoint s3_bucket p e msg h] at hmem
      simp at hmem
    · rw [save_video_eq_ok envV filename fps folder images lossless method
        quality s3_endpoint s3_bucket p e b h] at hmem
      simp only [List.mem_singleton] at hmem
      subst hmem
      rfl
  · intro envI imgs put hmem
    rw [save_images_puts] at hmem
    exact (imgLoop_puts_spec envI s3_endpoint s3_bucket folder filename
      (pngMetadata envI.dumps p e) imgs 0 put hmem).2

/-- C8 amended witness: with a concrete prompt and a `"prompt"`-free extra
mapping, the PNG chunk list equals the video object-metadata list. -/
theorem C8_amended_metadata_witness :
    pngMetadata (fun s : String => s) (some "hello") (some [("seed", "42")]) =
      some (vidMetadata (fun s : String => s) (some "hello")
        (some [("seed", "42")])) := by
  have h := C8_amended_metadata (fun s : String => s) (some "hello")
    (some [("seed", "42")]) vidEnv0 [] "a.mp4" 6 "f" true "default" 80
    "http://e" "bkt"
    (by
      intro kvs hk
      obtain rfl : [(("seed" : String), ("42" : String))] = kvs := Option.some.inj hk
      simp)
    (by
      intro kvs hk _
      obtain rfl : [(("seed" : String), ("42" : String))] = kvs := Option.some.inj hk
      decide)
  exact h.2.2.1 (Or.inl (by simp))
